import Mathlib

/-!
Shallow embedding of the voice-bot per-call session core:
the Twilio media-stream orchestrator in src/voice/streamHandler.ts,
the speech-to-text bridge in src/stt/deepgram.ts (createSttStream),
and the send guard plus base64 framing used by the output path,
with the text-to-speech empty-buffer signal from src/tts/tts.ts.
Provider calls (Deepgram, the LLM brain, TTS) are external I/O; their
outcomes enter the model as oracle parameters on events, and the calls
themselves are recorded as observable actions.
-/

namespace VoiceBot

/-- Role of one conversation turn, as in StreamContext.messages. -/
inductive Role where
  | user
  | assistant
  deriving DecidableEq, Repr

/-- One entry of the conversation history: role plus content. -/
structure Turn where
  role : Role
  content : String
  deriving DecidableEq, Repr

/-- Constant MAX_TURN_DURATION_MS from streamHandler.ts. -/
def MAX_TURN_DURATION_MS : Nat := 30000

/-- Constant SILENCE_TIMEOUT_MS from streamHandler.ts. -/
def SILENCE_TIMEOUT_MS : Nat := 4000

/-- Fallback phrase used by processUserInput on a pipeline failure. -/
def fallbackPhrase : String := "Sorry, I had a small hiccup. Can you say that again?"

/-- Standard base64 alphabet. -/
def base64Alphabet : List Char :=
  "ABCDEFGHIJKLMNOPQRSTUVWXYZabcdefghijklmnopqrstuvwxyz0123456789+/".toList

/-- Character for one 6-bit group. -/
def b64char (n : Nat) : Char := base64Alphabet.getD n '='

/-- Base64 encoding of a byte list (bytes are taken mod 256), as
Buffer.toString with base64 does in the source. -/
def base64Encode : List Nat → String
  | [] => ""
  | [b1] =>
      let x := b1 % 256
      String.mk [b64char (x / 4), b64char (x % 4 * 16), '=', '=']
  | [b1, b2] =>
      let x := b1 % 256
      let y := b2 % 256
      String.mk [b64char (x / 4), b64char (x % 4 * 16 + y / 16), b64char (y % 16 * 4), '=']
  | b1 :: b2 :: b3 :: rest =>
      let x := b1 % 256
      let y := b2 % 256
      let z := b3 % 256
      String.mk [b64char (x / 4), b64char (x % 4 * 16 + y / 16),
        b64char (y % 16 * 4 + z / 64), b64char (z % 64)] ++ base64Encode rest

/-- Whitespace test used by the JS trim model. -/
def isJsWhitespace (c : Char) : Bool :=
  c = ' ' || c = '\t' || c = '\n' || c = '\r'

/-- Model of the JS String trim method: strip leading and trailing
whitespace. -/
def jsTrim (s : String) : String :=
  String.mk (((s.toList.dropWhile isJsWhitespace).reverse.dropWhile isJsWhitespace).reverse)

/-- State of one createSttStream bridge (src/stt/deepgram.ts): whether the
provider connection handle is non-null and whether stop() was called. -/
structure SttStreamState where
  connection : Bool
  closed : Bool
  deriving DecidableEq, Repr

/-- Bridge state right after createSttStream returns. -/
def newSttStream : SttStreamState := { connection := false, closed := false }

/-- Bridge start(): no-op when the provider is not configured or a connection
already exists; otherwise clears closed and opens a connection. The returned
Bool reports whether a provider connection was opened. -/
def sttStart (dgConfigured : Bool) (st : SttStreamState) : SttStreamState × Bool :=
  if dgConfigured = false then (st, false)
  else if st.connection then (st, false)
  else ({ connection := true, closed := false }, true)

/-- Bridge write(chunk): the frame is sent iff a connection exists, the bridge
is not closed, and the chunk is non-empty. Write does not change state. -/
def sttWriteSends (st : SttStreamState) (chunkLen : Nat) : Bool :=
  st.connection && !st.closed && (chunkLen != 0)

/-- Bridge stop(): sets closed, attempts finish on a live connection, and
nulls the connection. The returned Bool reports whether finish was attempted
on a live connection. -/
def sttStop (st : SttStreamState) : SttStreamState × Bool :=
  ({ connection := false, closed := true }, st.connection)

/-- Bridge provider-error handler: nulls the connection (closed unchanged). -/
def sttOnError (st : SttStreamState) : SttStreamState :=
  { st with connection := false }

/-- Bridge provider-close handler: nulls the connection. -/
def sttOnProviderClose (st : SttStreamState) : SttStreamState :=
  { st with connection := false }

/-- Bridge transcript relay: the registered Transcript listener forwards the
trimmed text iff the raw transcript string is non-empty (truthy). It performs
no closed check. -/
def sttRelayTranscript (transcript : String) : Option String :=
  if transcript = "" then none else some (jsTrim transcript)

/-- Outcome of one runBrain call as observed by the pipeline. -/
inductive BrainResult where
  | ok (reply : String)
  | err
  deriving DecidableEq, Repr

/-- Outcome of one textToSpeech call as observed by the caller. -/
inductive TtsResult where
  | ok (audio : List Nat)
  | err
  deriving DecidableEq, Repr

/-- View of a TtsResult as the audio variable after a catch to null. -/
def ttsToOption : TtsResult → Option (List Nat)
  | .ok a => some a
  | .err => none

/-- Outbound media-event envelope written to the WebSocket. -/
structure MediaOut where
  event : String
  streamSid : String
  payload : String
  deriving DecidableEq, Repr

/-- Observable external effects of processing one event. -/
inductive Action where
  | sttConnOpen
  | sttSend (bytes : List Nat)
  | sttFinish
  | brainCall (messages : List Turn)
  | ttsCall (text : String)
  | wsSend (msg : MediaOut)
  deriving DecidableEq, Repr

/-- One armed turn timer: the setTimeout handle created at the start of
processUserInput, with its configured duration. -/
structure TurnTimer where
  id : Nat
  durationMs : Nat
  deriving DecidableEq, Repr

/-- The StreamContext record of streamHandler.ts. -/
structure StreamContext where
  callSid : String
  streamSid : Option String
  vertical : String
  messages : List Turn
  lastActivityAt : Nat
  isSpeaking : Bool
  streamStart : Nat
  deriving DecidableEq, Repr

/-- Closure state of one handleStream session: the context record, the
sttStream variable, the silence timer, the turnTimeout variable (declared in
the source and cleared by clearTurnTimeout, but never assigned), the armed
per-invocation turn timers of processUserInput, a fresh-id counter, whether
the WebSocket is open, and whether any provider connection ever registered
the Transcript listener. -/
structure SessionState where
  ctx : StreamContext
  sttStream : Option SttStreamState
  silenceTimerArmed : Bool
  turnTimeout : Option Nat
  pendingTurnTimers : List TurnTimer
  nextTimerId : Nat
  wsOpen : Bool
  listenerRegistered : Bool
  deriving DecidableEq, Repr

/-- Session state as built at the top of handleStream. -/
def initialSession (callSid vertical : String) (now : Nat) : SessionState :=
  { ctx := { callSid := callSid, streamSid := none, vertical := vertical, messages := [],
             lastActivityAt := now, isSpeaking := false, streamStart := now },
    sttStream := none, silenceTimerArmed := false, turnTimeout := none,
    pendingTurnTimers := [], nextTimerId := 0, wsOpen := true, listenerRegistered := false }

/-- Function resetSilenceTimer: cancels and re-arms the silence timer and
refreshes lastActivityAt. -/
def resetSilenceTimer (s : SessionState) (now : Nat) : SessionState :=
  { s with silenceTimerArmed := true, ctx := { s.ctx with lastActivityAt := now } }

/-- Function clearTurnTimeout: if the turnTimeout variable holds a timer
handle, cancel that timer and null the variable. -/
def clearTurnTimeout (s : SessionState) : SessionState :=
  match s.turnTimeout with
  | some tid =>
      { s with turnTimeout := none,
               pendingTurnTimers := s.pendingTurnTimers.filter (fun t => t.id != tid) }
  | none => s

/-- Output-send guard of streamHandler.ts: writes one media envelope iff the
audio variable is truthy (a non-null Buffer, empty included), the WebSocket is
open, and ctx.streamSid is assigned. -/
def sendAudio (audio : Option (List Nat)) (wsOpen : Bool) (streamSid : Option String) :
    Option MediaOut :=
  match audio, streamSid with
  | some a, some sid =>
      if wsOpen then some { event := "media", streamSid := sid, payload := base64Encode a }
      else none
  | _, _ => none

/-- Synchronous prefix of processUserInput: push the caller turn, set
isSpeaking, and arm the turn timer (a fresh local setTimeout handle with
duration MAX_TURN_DURATION_MS). Returns the armed timer id. -/
def pipelineStart (s : SessionState) (text : String) : SessionState × Nat :=
  let tid := s.nextTimerId
  let newMessages := s.ctx.messages ++ [{ role := Role.user, content := text }]
  ({ s with
      ctx := { s.ctx with messages := newMessages, isSpeaking := true },
      pendingTurnTimers := s.pendingTurnTimers ++ [{ id := tid, durationMs := MAX_TURN_DURATION_MS }],
      nextTimerId := tid + 1 }, tid)

/-- Cleanup block of processUserInput (the finally): cancel the local turn
timer and clear isSpeaking. -/
def pipelineCleanup (s : SessionState) (tid : Nat) : SessionState :=
  { s with pendingTurnTimers := s.pendingTurnTimers.filter (fun t => t.id != tid),
           ctx := { s.ctx with isSpeaking := false } }

/-- Remainder of processUserInput after the turn timer is armed: run the
brain on the history (caller turn included); on success append the reply and
synthesize it; on any failure synthesize the fallback phrase with a catch to
null; send through the output guard; always run the cleanup block. -/
def pipelineRest (s : SessionState) (tid : Nat) (brain : BrainResult)
    (tts ttsFb : TtsResult) : SessionState × List Action :=
  match brain with
  | .ok reply =>
      let s1 := { s with ctx := { s.ctx with
                    messages := s.ctx.messages ++ [{ role := .assistant, content := reply }] } }
      match tts with
      | .ok audio =>
          let out := sendAudio (some audio) s1.wsOpen s1.ctx.streamSid
          (pipelineCleanup s1 tid,
            [Action.brainCall s.ctx.messages, Action.ttsCall reply]
              ++ (out.map Action.wsSend).toList)
      | .err =>
          let out := sendAudio (ttsToOption ttsFb) s1.wsOpen s1.ctx.streamSid
          (pipelineCleanup s1 tid,
            [Action.brainCall s.ctx.messages, Action.ttsCall reply,
              Action.ttsCall fallbackPhrase] ++ (out.map Action.wsSend).toList)
  | .err =>
      let out := sendAudio (ttsToOption ttsFb) s.wsOpen s.ctx.streamSid
      (pipelineCleanup s tid,
        [Action.brainCall s.ctx.messages, Action.ttsCall fallbackPhrase]
          ++ (out.map Action.wsSend).toList)

/-- Whole processUserInput run with given provider outcomes. -/
def runPipeline (s : SessionState) (text : String) (brain : BrainResult)
    (tts ttsFb : TtsResult) : SessionState × List Action :=
  let (s1, tid) := pipelineStart s text
  pipelineRest s1 tid brain tts ttsFb

/-- Firing of an armed turn timer: clears isSpeaking (the timer body) and
consumes the timer. No effect when the timer is not pending. -/
def fireTurnTimer (s : SessionState) (tid : Nat) : SessionState :=
  if s.pendingTurnTimers.any (fun t => t.id == tid) then
    { s with ctx := { s.ctx with isSpeaking := false },
             pendingTurnTimers := s.pendingTurnTimers.filter (fun t => t.id != tid) }
  else s

/-- Synchronous prefix of the onTranscript closure in handleStream: return
early unless the text trims non-empty and isFinal holds; otherwise refresh
lastActivityAt and run clearTurnTimeout. The Bool reports whether
processUserInput is then invoked. -/
def onTranscriptSync (s : SessionState) (text : String) (isFinal : Bool) (now : Nat) :
    SessionState × Bool :=
  if jsTrim text = "" ∨ isFinal = false then (s, false)
  else
    let s1 := { s with ctx := { s.ctx with lastActivityAt := now } }
    (clearTurnTimeout s1, true)

/-- Whole onTranscript callback including the asynchronous pipeline run. -/
def onTranscriptCb (s : SessionState) (text : String) (isFinal : Bool) (now : Nat)
    (brain : BrainResult) (tts ttsFb : TtsResult) : SessionState × List Action :=
  let (s1, go) := onTranscriptSync s text isFinal now
  if go then runPipeline s1 text brain tts ttsFb else (s1, [])

/-- Process-wide configuration: whether DEEPGRAM_API_KEY is set. -/
structure Env where
  dgConfigured : Bool
  deriving DecidableEq, Repr

/-- Inbound events of one session: WebSocket protocol events and events
raised by the provider connection. Oracle parameters carry the outcomes of
the external calls an event triggers. -/
inductive SessionEvent where
  | wsMedia (bytes : List Nat) (now : Nat)
  | wsStart (streamSid : Option String) (vertical : Option String)
      (greeting : String) (greetingTts : TtsResult) (now : Nat)
  | wsStop
  | wsClose
  | sttError
  | sttTranscript (text : String) (isFinal : Bool) (now : Nat)
      (brain : BrainResult) (tts ttsFb : TtsResult)
  deriving DecidableEq, Repr

/-- Media branch of the ws message handler: skipped when the payload is
falsy (empty); otherwise lazily create and start the bridge on first frame,
write the frame, and reset the silence timer. -/
def stepMedia (env : Env) (s : SessionState) (bytes : List Nat) (now : Nat) :
    SessionState × List Action :=
  if bytes = [] then (s, [])
  else
    match s.sttStream with
    | none =>
        let (st1, opened) := sttStart env.dgConfigured newSttStream
        let sends := sttWriteSends st1 bytes.length
        (resetSilenceTimer
            { s with
                sttStream := some st1,
                listenerRegistered := s.listenerRegistered || opened } now,
          (if opened then [Action.sttConnOpen] else [])
            ++ (if sends then [Action.sttSend bytes] else []))
    | some st =>
        let sends := sttWriteSends st bytes.length
        (resetSilenceTimer s now, if sends then [Action.sttSend bytes] else [])

/-- Start branch of the ws message handler: bind streamSid and vertical when
truthy, reset the silence timer, and dispatch the greeting (isSpeaking is set
during the dispatch and cleared in its finally; the synthesized greeting goes
through the output guard). The greeting text is the one resolved from the
vertical configuration. -/
def stepStart (s : SessionState) (sid : Option String) (vertical : Option String)
    (greeting : String) (greetingTts : TtsResult) (now : Nat) : SessionState × List Action :=
  let s1 := match sid with
    | some v => if v = "" then s else { s with ctx := { s.ctx with streamSid := some v } }
    | none => s
  let s2 := match vertical with
    | some v => if v = "" then s1 else { s1 with ctx := { s1.ctx with vertical := v } }
    | none => s1
  let s3 := resetSilenceTimer s2 now
  let out := sendAudio (ttsToOption greetingTts) s3.wsOpen s3.ctx.streamSid
  ({ s3 with ctx := { s3.ctx with isSpeaking := false } },
    [Action.ttsCall greeting] ++ (out.map Action.wsSend).toList)

/-- Stop branch of the ws message handler: stop the bridge if present and
null the sttStream variable. -/
def stepStop (s : SessionState) : SessionState × List Action :=
  match s.sttStream with
  | some st =>
      let (_, finished) := sttStop st
      ({ s with sttStream := none }, if finished then [Action.sttFinish] else [])
  | none => ({ s with sttStream := none }, [])

/-- Close handler of the WebSocket: cancel the silence timer, run
clearTurnTimeout, stop the bridge if present (the sttStream variable is not
nulled here), and mark the channel closed. -/
def stepClose (s : SessionState) : SessionState × List Action :=
  let s1 := clearTurnTimeout { s with silenceTimerArmed := false }
  match s1.sttStream with
  | some st =>
      let (st1, finished) := sttStop st
      ({ s1 with sttStream := some st1, wsOpen := false },
        if finished then [Action.sttFinish] else [])
  | none => ({ s1 with wsOpen := false }, [])

/-- Provider error on the current bridge. -/
def stepSttError (s : SessionState) : SessionState × List Action :=
  match s.sttStream with
  | some st => ({ s with sttStream := some (sttOnError st) }, [])
  | none => (s, [])

/-- Provider transcript delivery: the Transcript listener (registered once a
connection opened) relays truthy transcripts trimmed to the session callback;
no teardown guard exists on this path. -/
def stepTranscript (s : SessionState) (text : String) (isFinal : Bool) (now : Nat)
    (brain : BrainResult) (tts ttsFb : TtsResult) : SessionState × List Action :=
  if s.listenerRegistered then
    match sttRelayTranscript text with
    | some trimmed => onTranscriptCb s trimmed isFinal now brain tts ttsFb
    | none => (s, [])
  else (s, [])

/-- One event of the session state machine. -/
def step (env : Env) (s : SessionState) (e : SessionEvent) : SessionState × List Action :=
  match e with
  | .wsMedia bytes now => stepMedia env s bytes now
  | .wsStart sid vertical greeting gtts now => stepStart s sid vertical greeting gtts now
  | .wsStop => stepStop s
  | .wsClose => stepClose s
  | .sttError => stepSttError s
  | .sttTranscript text isFinal now brain tts ttsFb =>
      stepTranscript s text isFinal now brain tts ttsFb

/-- Run a list of events, collecting each event's actions. -/
def runTrace (env : Env) (s : SessionState) : List SessionEvent → SessionState × List (List Action)
  | [] => (s, [])
  | e :: rest =>
      let (s1, acts) := step env s e
      let (s2, actss) := runTrace env s1 rest
      (s2, acts :: actss)

/-- Model of textToSpeech in src/tts/tts.ts: an empty raw result is returned
as is (the not-configured signal); otherwise the mulaw conversion result is
used when available, else the raw audio. -/
def textToSpeechModel (raw : List Nat) (mulaw : Option (List Nat)) : List Nat :=
  if raw.length = 0 then raw
  else match mulaw with
    | some m => m
    | none => raw

/-- Result of openaiTts when no OpenAI key is configured: an empty buffer. -/
def openaiTtsUnconfigured : List Nat := []

/-- Number of WebSocket writes among a list of actions. -/
def wsSendCount (acts : List Action) : Nat :=
  (acts.filter (fun a => match a with | .wsSend _ => true | _ => false)).length

/-- C1 counterexample: with the provider configured, a media event processed
after a stop event opens a fresh provider connection and forwards the frame
to it, because the stop handler nulls the sttStream variable and lazy
creation then treats the next frame like a first frame. This refutes the
claim that a media event arriving after stop causes no provider connection
to be opened or written to. -/
theorem C1_counterexample :
    (step ⟨true⟩ (step ⟨true⟩ (step ⟨true⟩ (initialSession "c" "sales" 0)
        (SessionEvent.wsMedia [1] 1)).1 SessionEvent.wsStop).1
      (SessionEvent.wsMedia [2] 2)).2
      = [Action.sttConnOpen, Action.sttSend [2]] := by
  rfl

/-- C1 amended: writes on a stopped bridge always drop, so no frame ever
reaches the torn-down provider connection; but a media event arriving after
a stop event re-creates the bridge, opening a fresh provider connection and
forwarding the frame to it. -/
theorem C1_teardown_write_behaviour (st : SttStreamState) (n : Nat) (s : SessionState)
    (bytes : List Nat) (now : Nat) (h : bytes ≠ []) :
    sttWriteSends (sttStop st).1 n = false ∧
    (step ⟨true⟩ (step ⟨true⟩ s SessionEvent.wsStop).1 (SessionEvent.wsMedia bytes now)).2
      = [Action.sttConnOpen, Action.sttSend bytes] := by
  constructor
  · rfl
  · cases hs : s.sttStream <;>
      simp [step, stepStop, stepMedia, sttStart, newSttStream, sttWriteSends,
        resetSilenceTimer, h, List.length_eq_zero, hs]

/-- C1 witness for the amended theorem at a concrete input. -/
theorem C1_teardown_write_behaviour_witness :
    sttWriteSends (sttStop newSttStream).1 3 = false ∧
    (step ⟨true⟩ (step ⟨true⟩ (initialSession "c" "sales" 0) SessionEvent.wsStop).1
        (SessionEvent.wsMedia [7] 4)).2 = [Action.sttConnOpen, Action.sttSend [7]] :=
  C1_teardown_write_behaviour newSttStream 3 (initialSession "c" "sales" 0) [7] 4 (by decide)

/-- C2: the turn timer armed when a caller turn begins processing is a local
handle inside processUserInput, while clearTurnTimeout only clears the
separate turnTimeout variable, which is never assigned anywhere. Evaluating
the code at the failing input: a final non-empty transcript arriving while a
previous turn is in flight does invoke the pipeline, but the previous turn
timer is still pending afterwards and the turnTimeout variable was null, so
nothing was cancelled. -/
theorem C2_previous_turn_timer_survives :
    ((onTranscriptSync (pipelineStart (initialSession "c" "sales" 0) "hello").1
        "world" true 5).2 = true) ∧
    ((onTranscriptSync (pipelineStart (initialSession "c" "sales" 0) "hello").1
        "world" true 5).1.turnTimeout = none) ∧
    ({ id := (pipelineStart (initialSession "c" "sales" 0) "hello").2,
       durationMs := MAX_TURN_DURATION_MS } ∈
      (onTranscriptSync (pipelineStart (initialSession "c" "sales" 0) "hello").1
        "world" true 5).1.pendingTurnTimers) := by
  refine ⟨by decide, by decide, by decide⟩

/-- C3 counterexample: after a provider connection error, a later inbound
frame on the same session produces no provider actions at all: the bridge
object still exists, so lazy creation does not run, and write drops the
frame because the connection is null; start is never called again. This
refutes the claim that a later frame causes a fresh provider connection. -/
theorem C3_counterexample :
    (runTrace ⟨true⟩ (initialSession "c" "sales" 0)
        [SessionEvent.wsMedia [1] 1, SessionEvent.sttError, SessionEvent.wsMedia [2] 2]).2
      = [[Action.sttConnOpen, Action.sttSend [1]], [], []] := by
  rfl

/-- C3 amended: on a provider error the bridge does reset to not connected,
and a fresh start call on such a bridge would open a new connection; but an
inbound frame on an existing bridge never calls start, so after the error
every later frame is dropped and no fresh connection is opened. -/
theorem C3_error_resets_but_frames_drop (st : SttStreamState) (env : Env)
    (s : SessionState) (bytes : List Nat) (now : Nat)
    (hst : s.sttStream = some st) (hconn : st.connection = false) :
    (sttOnError st).connection = false ∧
    (sttStart true (sttOnError st)).2 = true ∧
    (sttStart true (sttOnError st)).1.connection = true ∧
    (step env s (SessionEvent.wsMedia bytes now)).2 = [] := by
  refine ⟨rfl, rfl, rfl, ?_⟩
  by_cases hb : bytes = []
  · simp [step, stepMedia, hb]
  · simp [step, stepMedia, hb, hst, sttWriteSends, hconn]

/-- C3 witness for the amended theorem at a concrete input. -/
theorem C3_error_resets_but_frames_drop_witness :
    (sttOnError { connection := false, closed := false }).connection = false ∧
    (sttStart true (sttOnError { connection := false, closed := false })).2 = true ∧
    (sttStart true (sttOnError { connection := false, closed := false })).1.connection = true ∧
    (step ⟨true⟩ (runTrace ⟨true⟩ (initialSession "c" "sales" 0)
        [SessionEvent.wsMedia [1] 1, SessionEvent.sttError]).1
      (SessionEvent.wsMedia [2] 2)).2 = [] :=
  C3_error_resets_but_frames_drop { connection := false, closed := false } ⟨true⟩
    (runTrace ⟨true⟩ (initialSession "c" "sales" 0)
      [SessionEvent.wsMedia [1] 1, SessionEvent.sttError]).1
    [2] 2 (by decide) (by decide)

/-- C4: when the reasoning call or the synthesis call fails, the pipeline
synthesizes the fixed fallback phrase; if synthesizing the fallback fails
too, no audio is sent at all (and the run still returns normally, so no
error propagates); if the fallback synthesis succeeds and the channel is
usable, the fallback audio is sent to the caller. -/
theorem C4_failure_substitutes_fallback (s : SessionState) (tid : Nat)
    (brain : BrainResult) (tts ttsFb : TtsResult)
    (hfail : brain = BrainResult.err ∨
      (∃ r, brain = BrainResult.ok r ∧ tts = TtsResult.err)) :
    Action.ttsCall fallbackPhrase ∈ (pipelineRest s tid brain tts ttsFb).2 ∧
    (ttsFb = TtsResult.err →
      ∀ m, Action.wsSend m ∉ (pipelineRest s tid brain tts ttsFb).2) ∧
    (∀ a sid, ttsFb = TtsResult.ok a → s.wsOpen = true → s.ctx.streamSid = some sid →
      Action.wsSend { event := "media", streamSid := sid, payload := base64Encode a }
        ∈ (pipelineRest s tid brain tts ttsFb).2) := by
  rcases hfail with hb | ⟨r, hb, ht⟩
  · subst hb
    refine ⟨?_, fun hfb m => ?_, fun a sid hfb hopen hsid => ?_⟩
    · cases ttsFb <;> simp [pipelineRest, ttsToOption, sendAudio]
    · subst hfb; simp [pipelineRest, ttsToOption, sendAudio]
    · subst hfb; simp [pipelineRest, ttsToOption, sendAudio, hopen, hsid]
  · subst hb; subst ht
    refine ⟨?_, fun hfb m => ?_, fun a sid hfb hopen hsid => ?_⟩
    · cases ttsFb <;> simp [pipelineRest, ttsToOption, sendAudio]
    · subst hfb; simp [pipelineRest, ttsToOption, sendAudio]
    · subst hfb; simp [pipelineRest, ttsToOption, sendAudio, hopen, hsid]

/-- C4 witness at a concrete input: reasoning failure with a working
fallback synthesis on a session whose channel is open with an assigned
stream id. -/
theorem C4_failure_substitutes_fallback_witness :
    Action.ttsCall fallbackPhrase ∈
      (pipelineRest (stepStart (initialSession "c" "sales" 0) (some "MS") none "hi"
          (TtsResult.ok [1]) 1).1 0 BrainResult.err TtsResult.err (TtsResult.ok [9])).2 ∧
    (TtsResult.ok [9] = TtsResult.err →
      ∀ m, Action.wsSend m ∉
        (pipelineRest (stepStart (initialSession "c" "sales" 0) (some "MS") none "hi"
            (TtsResult.ok [1]) 1).1 0 BrainResult.err TtsResult.err (TtsResult.ok [9])).2) ∧
    (∀ a sid, TtsResult.ok [9] = TtsResult.ok a →
      (stepStart (initialSession "c" "sales" 0) (some "MS") none "hi"
          (TtsResult.ok [1]) 1).1.wsOpen = true →
      (stepStart (initialSession "c" "sales" 0) (some "MS") none "hi"
          (TtsResult.ok [1]) 1).1.ctx.streamSid = some sid →
      Action.wsSend { event := "media", streamSid := sid, payload := base64Encode a }
        ∈ (pipelineRest (stepStart (initialSession "c" "sales" 0) (some "MS") none "hi"
            (TtsResult.ok [1]) 1).1 0 BrainResult.err TtsResult.err (TtsResult.ok [9])).2) :=
  C4_failure_substitutes_fallback
    (stepStart (initialSession "c" "sales" 0) (some "MS") none "hi" (TtsResult.ok [1]) 1).1
    0 BrainResult.err TtsResult.err (TtsResult.ok [9]) (Or.inl rfl)

/-- C5: the turn timer armed at turn start is cancelled by the guaranteed
cleanup on every exit path of the pipeline (reasoning success, reasoning
failure, synthesis failure), which also clears isSpeaking; and when the
pipeline stalls before completing, the timer armed at turn start is pending
with the configured duration MAX_TURN_DURATION_MS and its firing clears
isSpeaking. -/
theorem C5_turn_timer_guaranteed_cleanup (s : SessionState) (text : String)
    (brain : BrainResult) (tts ttsFb : TtsResult) :
    (∀ d, ({ id := (pipelineStart s text).2, durationMs := d } : TurnTimer) ∉
        (pipelineRest (pipelineStart s text).1 (pipelineStart s text).2
          brain tts ttsFb).1.pendingTurnTimers) ∧
    (pipelineRest (pipelineStart s text).1 (pipelineStart s text).2
        brain tts ttsFb).1.ctx.isSpeaking = false ∧
    ({ id := (pipelineStart s text).2, durationMs := MAX_TURN_DURATION_MS } : TurnTimer) ∈
        (pipelineStart s text).1.pendingTurnTimers ∧
    (fireTurnTimer (pipelineStart s text).1 (pipelineStart s text).2).ctx.isSpeaking = false := by
  refine ⟨fun d => ?_, ?_, ?_, ?_⟩
  · cases brain <;> cases tts <;>
      simp [pipelineStart, pipelineRest, pipelineCleanup, List.mem_filter]
  · cases brain <;> cases tts <;> simp [pipelineStart, pipelineRest, pipelineCleanup]
  · simp [pipelineStart]
  · simp [pipelineStart, fireTurnTimer]

/-- C5 witness at a concrete input. -/
theorem C5_turn_timer_guaranteed_cleanup_witness :
    (({ id := (pipelineStart (initialSession "c" "sales" 0) "hi").2, durationMs := 5 } : TurnTimer) ∉
        (pipelineRest (pipelineStart (initialSession "c" "sales" 0) "hi").1
          (pipelineStart (initialSession "c" "sales" 0) "hi").2
          BrainResult.err TtsResult.err TtsResult.err).1.pendingTurnTimers) ∧
    (pipelineRest (pipelineStart (initialSession "c" "sales" 0) "hi").1
        (pipelineStart (initialSession "c" "sales" 0) "hi").2
        BrainResult.err TtsResult.err TtsResult.err).1.ctx.isSpeaking = false ∧
    ({ id := (pipelineStart (initialSession "c" "sales" 0) "hi").2,
       durationMs := MAX_TURN_DURATION_MS } : TurnTimer) ∈
        (pipelineStart (initialSession "c" "sales" 0) "hi").1.pendingTurnTimers ∧
    (fireTurnTimer (pipelineStart (initialSession "c" "sales" 0) "hi").1
        (pipelineStart (initialSession "c" "sales" 0) "hi").2).ctx.isSpeaking = false := by
  have h := C5_turn_timer_guaranteed_cleanup (initialSession "c" "sales" 0) "hi"
    BrainResult.err TtsResult.err TtsResult.err
  exact ⟨h.1 5, h.2.1, h.2.2.1, h.2.2.2⟩

/-- C6: an interim or whitespace-only transcript leaves the whole session
state unchanged and triggers nothing, and the conversation history changes
only when the transcript is final with non-empty trimmed text. -/
theorem C6_history_only_on_final_nonempty (s : SessionState) (text : String)
    (isFinal : Bool) (now : Nat) (brain : BrainResult) (tts ttsFb : TtsResult) :
    ((isFinal = false ∨ jsTrim text = "") →
      onTranscriptCb s text isFinal now brain tts ttsFb = (s, [])) ∧
    ((onTranscriptCb s text isFinal now brain tts ttsFb).1.ctx.messages ≠ s.ctx.messages →
      isFinal = true ∧ jsTrim text ≠ "") := by
  by_cases h : jsTrim text = "" ∨ isFinal = false
  · constructor
    · intro _
      simp [onTranscriptCb, onTranscriptSync, h]
    · intro hm
      exact absurd (by simp [onTranscriptCb, onTranscriptSync, h]) hm
  · constructor
    · intro hcond
      rcases hcond with hf | ht
      · exact absurd (Or.inr hf) h
      · exact absurd (Or.inl ht) h
    · intro _
      push_neg at h
      refine ⟨?_, h.1⟩
      cases isFinal
      · exact absurd rfl h.2
      · rfl

/-- C6 witness at a concrete input: an interim transcript is dropped. -/
theorem C6_history_only_on_final_nonempty_witness :
    onTranscriptCb (initialSession "c" "sales" 0) "hello" false 3
        BrainResult.err TtsResult.err TtsResult.err
      = (initialSession "c" "sales" 0, []) :=
  (C6_history_only_on_final_nonempty (initialSession "c" "sales" 0) "hello" false 3
    BrainResult.err TtsResult.err TtsResult.err).1 (Or.inl rfl)

/-- C7: one pipeline run appends exactly one caller turn to the history,
followed by exactly one agent turn on reasoning success and none on
reasoning failure; every pre-existing entry is preserved unchanged and in
order, so the history is strictly append-only in dispatch order. -/
theorem C7_history_append_only (s : SessionState) (text : String)
    (brain : BrainResult) (tts ttsFb : TtsResult) :
    (runPipeline s text brain tts ttsFb).1.ctx.messages
      = s.ctx.messages ++ [{ role := Role.user, content := text }]
          ++ (match brain with
              | BrainResult.ok r => [{ role := Role.assistant, content := r }]
              | BrainResult.err => []) := by
  cases brain <;> cases tts <;>
    simp [runPipeline, pipelineStart, pipelineRest, pipelineCleanup]

/-- C8 counterexample: a transcript event delivered by the provider after
the stop event has been processed is still honored: the transcript handler
has no teardown guard, so a final non-empty transcript mutates the
conversation history (and triggers the pipeline). This refutes the claim
that no transcript callback delivered after teardown is honored. -/
theorem C8_counterexample :
    (runTrace ⟨true⟩ (initialSession "c" "sales" 0)
        [SessionEvent.wsMedia [1] 1, SessionEvent.wsStop,
         SessionEvent.sttTranscript "hello" true 2
           BrainResult.err TtsResult.err TtsResult.err]).1.ctx.messages
      = [{ role := Role.user, content := "hello" }] := by
  rfl

/-- C8 amended: teardown is idempotent: a second stop event is a complete
no-op, a close after a stop releases no provider resource a second time, and
a second bridge stop attempts no second finish; but a transcript delivered
after teardown is still honored, appending turns to the history exactly as
during the live session. -/
theorem C8_teardown_idempotent_but_transcripts_honored (env : Env) (s : SessionState)
    (st : SttStreamState) (text : String) (now : Nat)
    (brain : BrainResult) (tts ttsFb : TtsResult)
    (hl : s.listenerRegistered = true) (h1 : text ≠ "") (h2 : jsTrim (jsTrim text) ≠ "") :
    step env (step env s SessionEvent.wsStop).1 SessionEvent.wsStop
      = ((step env s SessionEvent.wsStop).1, []) ∧
    (step env (step env s SessionEvent.wsStop).1 SessionEvent.wsClose).2 = [] ∧
    sttStop (sttStop st).1 = ((sttStop st).1, false) ∧
    (step env (step env s SessionEvent.wsStop).1
        (SessionEvent.sttTranscript text true now brain tts ttsFb)).1.ctx.messages
      = s.ctx.messages ++ [{ role := Role.user, content := jsTrim text }]
          ++ (match brain with
              | BrainResult.ok r => [{ role := Role.assistant, content := r }]
              | BrainResult.err => []) := by
  refine ⟨?_, ?_, rfl, ?_⟩
  · cases hs : s.sttStream <;> simp [step, stepStop, hs]
  · cases hs : s.sttStream <;> cases ht : s.turnTimeout <;>
      simp [step, stepStop, stepClose, clearTurnTimeout, hs, ht]
  · cases hs : s.sttStream <;> cases ht : s.turnTimeout <;> cases brain <;> cases tts <;>
      simp [step, stepStop, stepTranscript, sttRelayTranscript, onTranscriptCb,
        onTranscriptSync, clearTurnTimeout, runPipeline, pipelineStart, pipelineRest,
        pipelineCleanup, hs, ht, hl, h1, h2]

/-- C8 witness for the amended theorem at a concrete input: the session
after one media frame, so the transcript listener is registered. -/
theorem C8_teardown_idempotent_but_transcripts_honored_witness :
    step ⟨true⟩ (step ⟨true⟩ (step ⟨true⟩ (initialSession "c" "sales" 0)
        (SessionEvent.wsMedia [1] 1)).1 SessionEvent.wsStop).1 SessionEvent.wsStop
      = ((step ⟨true⟩ (step ⟨true⟩ (initialSession "c" "sales" 0)
          (SessionEvent.wsMedia [1] 1)).1 SessionEvent.wsStop).1, []) ∧
    (step ⟨true⟩ (step ⟨true⟩ (step ⟨true⟩ (initialSession "c" "sales" 0)
        (SessionEvent.wsMedia [1] 1)).1 SessionEvent.wsStop).1 SessionEvent.wsClose).2 = [] ∧
    sttStop (sttStop newSttStream).1 = ((sttStop newSttStream).1, false) ∧
    (step ⟨true⟩ (step ⟨true⟩ (step ⟨true⟩ (initialSession "c" "sales" 0)
        (SessionEvent.wsMedia [1] 1)).1 SessionEvent.wsStop).1
        (SessionEvent.sttTranscript "hello" true 2
          BrainResult.err TtsResult.err TtsResult.err)).1.ctx.messages
      = (step ⟨true⟩ (initialSession "c" "sales" 0)
            (SessionEvent.wsMedia [1] 1)).1.ctx.messages
          ++ [{ role := Role.user, content := jsTrim "hello" }]
          ++ (match BrainResult.err with
              | BrainResult.ok r => [{ role := Role.assistant, content := r }]
              | BrainResult.err => []) :=
  C8_teardown_idempotent_but_transcripts_honored ⟨true⟩
    (step ⟨true⟩ (initialSession "c" "sales" 0) (SessionEvent.wsMedia [1] 1)).1
    newSttStream "hello" 2 BrainResult.err TtsResult.err TtsResult.err
    (by decide) (by decide) (by decide)

/-- C9: the output path writes nothing when the channel is closed or the
stream id is unassigned; otherwise it writes exactly one message, the media
envelope with event media, the session stream id, and the base64-encoded
audio bytes as payload, both at the guard itself and through a successful
pipeline run. -/
theorem C9_output_sender_envelope (a : List Nat) (audio : Option (List Nat)) (wsOpen : Bool)
    (sid : String) (sidOpt : Option String) (s : SessionState) (tid : Nat) (reply : String)
    (ttsFb : TtsResult) :
    sendAudio audio false sidOpt = none ∧
    sendAudio audio wsOpen none = none ∧
    sendAudio (some a) true (some sid)
      = some { event := "media", streamSid := sid, payload := base64Encode a } ∧
    (s.wsOpen = true → s.ctx.streamSid = some sid →
      (pipelineRest s tid (BrainResult.ok reply) (TtsResult.ok a) ttsFb).2
        = [Action.brainCall s.ctx.messages, Action.ttsCall reply,
           Action.wsSend { event := "media", streamSid := sid, payload := base64Encode a }]) ∧
    ((s.wsOpen = false ∨ s.ctx.streamSid = none) →
      wsSendCount (pipelineRest s tid (BrainResult.ok reply) (TtsResult.ok a) ttsFb).2 = 0) := by
  refine ⟨?_, ?_, rfl, fun hopen hsid => ?_, fun hguard => ?_⟩
  · cases audio <;> cases sidOpt <;> rfl
  · cases audio <;> rfl
  · simp [pipelineRest, sendAudio, hopen, hsid]
  · rcases hguard with h | h
    · cases hsid2 : s.ctx.streamSid <;>
        simp [pipelineRest, sendAudio, wsSendCount, h, hsid2]
    · simp [pipelineRest, sendAudio, wsSendCount, h]

/-- C9 witness at a concrete input: open channel with assigned stream id. -/
theorem C9_output_sender_envelope_witness :
    (pipelineRest (stepStart (initialSession "c" "sales" 0) (some "MS") none "hi"
        (TtsResult.ok [1]) 1).1 0 (BrainResult.ok "r") (TtsResult.ok [1, 2]) TtsResult.err).2
      = [Action.brainCall (stepStart (initialSession "c" "sales" 0) (some "MS") none "hi"
            (TtsResult.ok [1]) 1).1.ctx.messages, Action.ttsCall "r",
         Action.wsSend { event := "media", streamSid := "MS", payload := base64Encode [1, 2] }] :=
  (C9_output_sender_envelope [1, 2] none true "MS" none
    (stepStart (initialSession "c" "sales" 0) (some "MS") none "hi" (TtsResult.ok [1]) 1).1
    0 "r" TtsResult.err).2.2.2.1 (by decide) (by decide)

/-- C10: an empty synthesized buffer (the not-configured signal of the TTS
module) is truthy for the send guard, so with an open channel and an
assigned stream id both the greeting dispatch and the pipeline write a media
event whose base64 payload is the empty string. -/
theorem C10_empty_buffer_still_sent (s : SessionState) (sid : String)
    (greeting reply : String) (now tid : Nat) (ttsFb : TtsResult) (m : Option (List Nat))
    (hopen : s.wsOpen = true) (hsidne : sid ≠ "") (hsid : s.ctx.streamSid = some sid) :
    textToSpeechModel openaiTtsUnconfigured m = [] ∧
    base64Encode [] = "" ∧
    (stepStart s (some sid) none greeting (TtsResult.ok []) now).2
      = [Action.ttsCall greeting,
         Action.wsSend { event := "media", streamSid := sid, payload := "" }] ∧
    (pipelineRest s tid (BrainResult.ok reply) (TtsResult.ok []) ttsFb).2
      = [Action.brainCall s.ctx.messages, Action.ttsCall reply,
         Action.wsSend { event := "media", streamSid := sid, payload := "" }] := by
  refine ⟨rfl, rfl, ?_, ?_⟩
  · simp [stepStart, resetSilenceTimer, sendAudio, ttsToOption, hopen, hsidne, base64Encode]
  · simp [pipelineRest, sendAudio, hopen, hsid, base64Encode]

/-- C10 witness at a concrete input. -/
theorem C10_empty_buffer_still_sent_witness :
    textToSpeechModel openaiTtsUnconfigured none = [] ∧
    base64Encode [] = "" ∧
    (stepStart (stepStart (initialSession "c" "sales" 0) (some "MS") none "hi"
        (TtsResult.ok [1]) 1).1 (some "MS") none "hi" (TtsResult.ok []) 2).2
      = [Action.ttsCall "hi",
         Action.wsSend { event := "media", streamSid := "MS", payload := "" }] ∧
    (pipelineRest (stepStart (initialSession "c" "sales" 0) (some "MS") none "hi"
        (TtsResult.ok [1]) 1).1 0 (BrainResult.ok "r") (TtsResult.ok []) TtsResult.err).2
      = [Action.brainCall (stepStart (initialSession "c" "sales" 0) (some "MS") none "hi"
            (TtsResult.ok [1]) 1).1.ctx.messages, Action.ttsCall "r",
         Action.wsSend { event := "media", streamSid := "MS", payload := "" }] :=
  C10_empty_buffer_still_sent
    (stepStart (initialSession "c" "sales" 0) (some "MS") none "hi" (TtsResult.ok [1]) 1).1
    "MS" "hi" "r" 2 0 TtsResult.err none (by decide) (by decide) (by decide)

end VoiceBot
